import Mathlib

/-!
Verification of the Excel-manager workbook façade (`excel_manager.py`).

The façade mediates all access to an in-memory workbook: sheet creation,
cell and range reads/writes (by 1-based row/column or A1-style reference)
and save.  We embed the workbook state shallowly: a workbook is an ordered
list of named sheets, a sheet is a sparse association list of cells plus
column-width metadata, and every operation of the Python class becomes a
Lean function returning either a result or an error, together with the
(possibly mutated) workbook state for the writing operations — Python
mutates the workbook in place, so an operation that raises after touching a
cell still leaves that mutation behind, and the embedding must expose this.

The underlying spreadsheet engine (openpyxl) is not part of the repository;
its behaviour used by the façade (column-letter conversion, A1 reference
parsing, the fresh-workbook constructor, sparse cells reading back as None)
is modelled from the spec, as marked on each such definition.
-/

/-- A cell value: the spec's closed sum of text, number and boolean
(dates travel as text in this façade). -/
inductive XlValue where
  | text (s : String)
  | num (n : Int)
  | boolean (b : Bool)
deriving DecidableEq, Repr

/-- The distinguishable failures the façade surfaces.  The Python code
raises `ValueError` everywhere; the constructors follow the distinct raise
sites and their messages.  `sheetNotFound` is the spec's UnknownSheetError,
`sheetExists` DuplicateSheetError, `invalidColumnSpec` the wrapper raised
by write_cell/read_cell for a bad row or column, `invalidCellRef` the
wrapper raised by write_cell_a1 for an unparsable reference,
`invalidReference` the engine's own parse error propagated unwrapped by
read_cell_a1, `invalidRangeSpec` the wrapper raised by read_range, and
`invalidNumberFormat` the spec's InvalidFormatError. -/
inductive XlError where
  | sheetNotFound (name : String)
  | sheetExists (name : String)
  | invalidColumnSpec
  | invalidCellRef (ref : String)
  | invalidReference (ref : String)
  | invalidRangeSpec
  | invalidNumberFormat (fmt : String)
deriving DecidableEq, Repr

/-- Classifies an error under the spec's `InvalidAddressError` kind
(bad row / column / A1-reference). -/
def XlError.isInvalidAddress : XlError → Bool
  | .invalidColumnSpec => true
  | .invalidCellRef _ => true
  | .invalidReference _ => true
  | _ => false

/-- Classifies an error under the spec's `InvalidRangeError` kind
(malformed range bounds). -/
def XlError.isInvalidRange : XlError → Bool
  | .invalidRangeSpec => true
  | _ => false

/-- One cell: an optional value, an optional display format, and the style
bits the façade can set (header bold / centered / gray fill, thin border). -/
structure CellData where
  value : Option XlValue
  numberFormat : Option String
  bold : Bool
  centered : Bool
  grayFill : Bool
  border : Bool
deriving DecidableEq, Repr

/-- A cell that has never been touched. -/
def blankCell : CellData := ⟨none, none, false, false, false, false⟩

/-- A sheet: sparse cells keyed by (row, column), earlier entries shadow
later ones (each write prepends), plus per-column display widths. -/
structure Sheet where
  cells : List ((Int × Int) × CellData)
  colWidths : List (Int × Nat)
deriving DecidableEq, Repr

/-- A sheet with no cells, as produced by `wb.create_sheet`. -/
def emptySheet : Sheet := ⟨[], []⟩

/-- A workbook: its sheets in order, names unique by construction. -/
structure Workbook where
  sheets : List (String × Sheet)
deriving DecidableEq, Repr

/-- Modelled from the spec: if no file exists at the path, Open-or-create
initializes an empty workbook in memory (the engine's `Workbook()`
constructor is not part of the repository). -/
def newWorkbook : Workbook := ⟨[]⟩

/-- First cell entry with the given key, if any ("Modelled from the spec":
the engine's sparse 2-D grid of cells). -/
def lookupCell : List ((Int × Int) × CellData) → Int × Int → Option CellData
  | [], _ => none
  | (k, d) :: rest, key => if k = key then some d else lookupCell rest key

/-- The cell at (row, column); an absent cell reads as `blankCell`, whose
value is `none` — the spec's "no value present → empty result". -/
def Sheet.getCell (ws : Sheet) (r c : Int) : CellData :=
  (lookupCell ws.cells (r, c)).getD blankCell

/-- Store the image of the current cell under `f` at (row, column); the new
entry shadows any older one, as in-place mutation does. -/
def Sheet.updateCell (ws : Sheet) (r c : Int) (f : CellData → CellData) : Sheet :=
  ⟨((r, c), f (ws.getCell r c)) :: ws.cells, ws.colWidths⟩

/-- Record a column's display width. -/
def Sheet.setWidth (ws : Sheet) (c : Int) (w : Nat) : Sheet :=
  ⟨ws.cells, (c, w) :: ws.colWidths⟩

/-- The sheet names in order (`self.wb.sheetnames`). -/
def Workbook.sheetnames (wb : Workbook) : List String :=
  wb.sheets.map Prod.fst

/-- First sheet with the given name (`self.wb[sheet_name]`). -/
def lookupSheet : List (String × Sheet) → String → Option Sheet
  | [], _ => none
  | (n, ws) :: rest, name => if n = name then some ws else lookupSheet rest name

/-- The named sheet of the workbook, if present. -/
def Workbook.getSheet (wb : Workbook) (name : String) : Option Sheet :=
  lookupSheet wb.sheets name

/-- Entries with the given name replaced by the image of `f` (names are
unique, so at most one entry is touched — in-place sheet mutation). -/
def updateSheets : List (String × Sheet) → String → (Sheet → Sheet) → List (String × Sheet)
  | [], _, _ => []
  | (n, ws) :: rest, name, f =>
    if n = name then (n, f ws) :: updateSheets rest name f
    else (n, ws) :: updateSheets rest name f

/-- Replace the named sheet by the image of `f`, in place. -/
def Workbook.updateSheet (wb : Workbook) (name : String) (f : Sheet → Sheet) : Workbook :=
  ⟨updateSheets wb.sheets name f⟩

/-- Value of one column letter: 'A'..'Z' (codes 65..90) map to 1..26.
Modelled from the spec: the engine's base-26 column numbering. -/
def colVal (ch : Char) : Option Nat :=
  if 65 ≤ ch.toNat ∧ ch.toNat ≤ 90 then some (ch.toNat - 64) else none

/-- Base-26 accumulation over the letters of a column string. -/
def colIndexAux : List Char → Nat → Option Nat
  | [], acc => some acc
  | ch :: rest, acc =>
    match colVal ch with
    | some v => colIndexAux rest (26 * acc + v)
    | none => none

/-- Modelled from the spec: the engine's `column_index_from_string` —
standard base-26 spreadsheet numbering (A=1, Z=26, AA=27, …), rejecting the
empty string and any string with a character outside 'A'..'Z'. -/
def column_index_from_string (s : String) : Option Int :=
  if s.data = [] then none
  else (colIndexAux s.data 0).map Int.ofNat

/-- The façade's flexible column argument: Python's `Union[int, str]`. -/
inductive Col where
  | int (i : Int)
  | str (s : String)
deriving DecidableEq, Repr

/-- `column_index_from_string(column) if isinstance(column, str) else column`. -/
def resolveCol : Col → Option Int
  | .int i => some i
  | .str s => column_index_from_string s

/-- Digits of a row number read as a base-10 natural. -/
def digitsToNat (ds : List Char) : Nat :=
  ds.foldl (fun acc ch => 10 * acc + (ch.toNat - 48)) 0

/-- Whether a character is a column letter 'A'..'Z' (codes 65..90). -/
def isColChar (ch : Char) : Bool :=
  decide (65 ≤ ch.toNat ∧ ch.toNat ≤ 90)

/-- Core of the A1 parser on the split letter/digit parts: both parts must
be non-empty, the tail all digits, and the row at least 1. -/
def parseA1Core (ls ds : List Char) : Option (Int × Int) :=
  if ls = [] ∨ ds = [] ∨ ¬ (ds.all Char.isDigit) then none
  else
    match colIndexAux ls 0 with
    | some c =>
      if 1 ≤ digitsToNat ds then some ((digitsToNat ds : Int), (c : Int)) else none
    | none => none

/-- Modelled from the spec: the engine's A1-reference parser — column
letters followed by a row number (e.g. "B2" ≡ row 2, column 2); anything
else, including a row below 1, is unparsable. -/
def parseA1 (ref : String) : Option (Int × Int) :=
  parseA1Core (ref.data.takeWhile isColChar)
    (ref.data.drop (ref.data.takeWhile isColChar).length)

/-- Header-row styling of `create_sheet`: bold, centered, gray fill,
border on each header cell, column width 15. -/
def applyHeaders : Sheet → Int → List String → Sheet
  | ws, _, [] => ws
  | ws, c, h :: rest =>
    applyHeaders
      ((ws.updateCell 1 c (fun cd =>
        { cd with value := some (.text h), bold := true, centered := true,
                  grayFill := true, border := true })).setWidth c 15)
      (c + 1) rest

/-- `create_sheet`: fails when the name is taken, otherwise appends a new
sheet and, when a non-empty header list is supplied (Python truthiness:
`if headers:`), writes the styled header row. -/
def create_sheet (wb : Workbook) (sheet_name : String) (headers : Option (List String)) :
    Workbook × Option XlError :=
  if sheet_name ∈ wb.sheetnames then (wb, some (.sheetExists sheet_name))
  else
    let ws :=
      match headers with
      | some hs => if hs = [] then emptySheet else applyHeaders emptySheet 1 hs
      | none => emptySheet
    (⟨wb.sheets ++ [(sheet_name, ws)]⟩, none)

/-- One row of `write_data`: value plus thin border at columns 1,2,…. -/
def writeRowAux : Sheet → Int → Int → List XlValue → Sheet
  | ws, _, _, [] => ws
  | ws, r, c, v :: vs =>
    writeRowAux (ws.updateCell r c (fun cd => { cd with value := some v, border := true }))
      r (c + 1) vs

/-- The nested loop of `write_data`, rows at start_row, start_row+1, …. -/
def writeRows : Sheet → Int → List (List XlValue) → Sheet
  | ws, _, [] => ws
  | ws, r, row :: rest => writeRows (writeRowAux ws r 1 row) (r + 1) rest

/-- `write_data`: fails when the sheet is missing, otherwise writes the
2-D block row-major from (start_row, 1) with borders. -/
def write_data (wb : Workbook) (sheet_name : String) (data : List (List XlValue))
    (start_row : Int) : Workbook × Option XlError :=
  match wb.getSheet sheet_name with
  | none => (wb, some (.sheetNotFound sheet_name))
  | some _ => (wb.updateSheet sheet_name (fun ws => writeRows ws start_row data), none)

/-- Shared tail of `write_cell` and `write_cell_a1` once the cell is
addressed: set the value, then the display format when a non-empty format
string is supplied (Python truthiness: `if number_format:`) — failing there
leaves the value already written and the border not yet applied — then the
thin border.  `fmtOk` is modelled from the spec: the engine's judgement of
a display-format string, which the façade only learns by the assignment
raising. -/
def setValueFormatBorder (wb : Workbook) (fmtOk : String → Bool) (sheet_name : String)
    (r c : Int) (value : XlValue) (number_format : Option String) :
    Workbook × Option XlError :=
  let wb1 := wb.updateSheet sheet_name
    (fun ws => ws.updateCell r c (fun cd => { cd with value := some value }))
  match number_format with
  | some f =>
    if f ≠ "" then
      if fmtOk f then
        (wb1.updateSheet sheet_name
          (fun ws => ws.updateCell r c (fun cd => { cd with numberFormat := some f, border := true })),
         none)
      else (wb1, some (.invalidNumberFormat f))
    else
      (wb1.updateSheet sheet_name
        (fun ws => ws.updateCell r c (fun cd => { cd with border := true })), none)
  | none =>
    (wb1.updateSheet sheet_name
      (fun ws => ws.updateCell r c (fun cd => { cd with border := true })), none)

/-- `write_cell`: sheet must exist; the column (integer or letters) must
resolve and both indices must be ≥ 1 — those failures are wrapped as the
one column-spec `ValueError` before anything is touched; then value,
optional format, border. -/
def write_cell (wb : Workbook) (fmtOk : String → Bool) (sheet_name : String)
    (row : Int) (column : Col) (value : XlValue) (number_format : Option String) :
    Workbook × Option XlError :=
  match wb.getSheet sheet_name with
  | none => (wb, some (.sheetNotFound sheet_name))
  | some _ =>
    match resolveCol column with
    | none => (wb, some .invalidColumnSpec)
    | some col_idx =>
      if col_idx < 1 then (wb, some .invalidColumnSpec)
      else if row < 1 then (wb, some .invalidColumnSpec)
      else setValueFormatBorder wb fmtOk sheet_name row col_idx value number_format

/-- `write_cell_a1`: sheet must exist; `ws[cell_reference]` must parse —
that failure is caught and rewrapped as the cell-reference `ValueError` —
then value, optional format, border as in `write_cell`. -/
def write_cell_a1 (wb : Workbook) (fmtOk : String → Bool) (sheet_name : String)
    (cell_reference : String) (value : XlValue) (number_format : Option String) :
    Workbook × Option XlError :=
  match wb.getSheet sheet_name with
  | none => (wb, some (.sheetNotFound sheet_name))
  | some _ =>
    match parseA1 cell_reference with
    | none => (wb, some (.invalidCellRef cell_reference))
    | some (r, c) => setValueFormatBorder wb fmtOk sheet_name r c value number_format

/-- `read_cell`: same sheet and address validation as `write_cell`, then
the stored value (absent cell → `none`). -/
def read_cell (wb : Workbook) (sheet_name : String) (row : Int) (column : Col) :
    Except XlError (Option XlValue) :=
  match wb.getSheet sheet_name with
  | none => .error (.sheetNotFound sheet_name)
  | some ws =>
    match resolveCol column with
    | none => .error .invalidColumnSpec
    | some col_idx =>
      if col_idx < 1 then .error .invalidColumnSpec
      else if row < 1 then .error .invalidColumnSpec
      else .ok (ws.getCell row col_idx).value

/-- `read_cell_a1`: sheet must exist; `ws[cell_reference].value` with no
wrapping — an unparsable reference surfaces as the engine's own error. -/
def read_cell_a1 (wb : Workbook) (sheet_name : String) (cell_reference : String) :
    Except XlError (Option XlValue) :=
  match wb.getSheet sheet_name with
  | none => .error (.sheetNotFound sheet_name)
  | some ws =>
    match parseA1 cell_reference with
    | none => .error (.invalidReference cell_reference)
    | some (r, c) => .ok (ws.getCell r c).value

/-- The inclusive integer interval a, a+1, … of length n (the rows or
columns visited by `iter_rows`). -/
def intRange : Int → Nat → List Int
  | _, 0 => []
  | a, n + 1 => a :: intRange (a + 1) n

/-- `read_range`: sheet must exist; rows are checked (≥ 1, end ≥ start),
then both columns resolved, then checked (≥ 1, end ≥ start) — every one of
those failures, column-resolution errors included, is wrapped by the one
range-spec `ValueError`; then the row-major block of values. -/
def read_range (wb : Workbook) (sheet_name : String) (start_row : Int)
    (start_column : Col) (end_row : Int) (end_column : Col) :
    Except XlError (List (List (Option XlValue))) :=
  match wb.getSheet sheet_name with
  | none => .error (.sheetNotFound sheet_name)
  | some ws =>
    if start_row < 1 ∨ end_row < 1 then .error .invalidRangeSpec
    else if end_row < start_row then .error .invalidRangeSpec
    else
      match resolveCol start_column with
      | none => .error .invalidRangeSpec
      | some start_col =>
        match resolveCol end_column with
        | none => .error .invalidRangeSpec
        | some end_col =>
          if start_col < 1 ∨ end_col < 1 then .error .invalidRangeSpec
          else if end_col < start_col then .error .invalidRangeSpec
          else
            .ok ((intRange start_row (end_row - start_row + 1).toNat).map
              (fun r => (intRange start_col (end_col - start_col + 1).toNat).map
                (fun c => (ws.getCell r c).value)))

/-! ### Basic lemmas about the state operations -/

theorem lookupSheet_updateSheets (ls : List (String × Sheet)) (name : String)
    (f : Sheet → Sheet) (ws : Sheet) (h : lookupSheet ls name = some ws) :
    lookupSheet (updateSheets ls name f) name = some (f ws) := by
  induction ls with
  | nil => simp [lookupSheet] at h
  | cons hd tl ih =>
    obtain ⟨n, ws1⟩ := hd
    by_cases hn : n = name
    · subst hn
      simp [lookupSheet] at h
      simp [lookupSheet, updateSheets, h]
    · simp [lookupSheet, hn] at h
      simp [lookupSheet, updateSheets, hn, ih h]

theorem Workbook.getSheet_updateSheet (wb : Workbook) (name : String)
    (f : Sheet → Sheet) (ws : Sheet) (h : wb.getSheet name = some ws) :
    (wb.updateSheet name f).getSheet name = some (f ws) :=
  lookupSheet_updateSheets wb.sheets name f ws h

theorem Sheet.getCell_updateCell_self (ws : Sheet) (r c : Int) (f : CellData → CellData) :
    (ws.updateCell r c f).getCell r c = f (ws.getCell r c) := by
  simp [Sheet.updateCell, Sheet.getCell, lookupCell]

/-- A one-sheet workbook used to instantiate the theorems concretely. -/
def wb0 : Workbook := ⟨[("S", emptySheet)]⟩

/-! ### The claims -/

/-- C1: on a workbook containing sheet `s`, for positive row and column,
`write_cell` succeeds and a subsequent `read_cell` at the same address
returns exactly the written value. -/
theorem c1_write_then_read_cell (wb : Workbook) (fmtOk : String → Bool) (s : String)
    (ws : Sheet) (r c : Int) (v : XlValue)
    (hs : wb.getSheet s = some ws) (hr : 1 ≤ r) (hc : 1 ≤ c) :
    (write_cell wb fmtOk s r (.int c) v none).2 = none ∧
    read_cell (write_cell wb fmtOk s r (.int c) v none).1 s r (.int c)
      = .ok (some v) := by
  have hr' : ¬ (r < 1) := by omega
  have hc' : ¬ (c < 1) := by omega
  have h1 := Workbook.getSheet_updateSheet wb s
    (fun ws => ws.updateCell r c (fun cd => { cd with value := some v })) ws hs
  have h2 := Workbook.getSheet_updateSheet (wb.updateSheet s
      (fun ws => ws.updateCell r c (fun cd => { cd with value := some v }))) s
    (fun ws => ws.updateCell r c (fun cd => { cd with border := true })) _ h1
  simp [write_cell, setValueFormatBorder, resolveCol, hs, hr', hc', read_cell, h2,
    Sheet.getCell_updateCell_self]

/-- Instantiation of C1 at a concrete workbook, address and value. -/
theorem c1_witness :
    (write_cell wb0 (fun _ => true) "S" 2 (.int 3) (.num 7) none).2 = none ∧
    read_cell (write_cell wb0 (fun _ => true) "S" 2 (.int 3) (.num 7) none).1 "S" 2 (.int 3)
      = .ok (some (.num 7)) :=
  c1_write_then_read_cell wb0 (fun _ => true) "S" emptySheet 2 3 (.num 7)
    (by decide) (by decide) (by decide)

/-- C6: creating a sheet whose name is already present always fails with
the duplicate-sheet error, and the whole workbook — the existing sheet's
cells, styles and column widths included — is returned unmutated. -/
theorem c6_create_sheet_duplicate (wb : Workbook) (name : String)
    (headers : Option (List String)) (h : name ∈ wb.sheetnames) :
    create_sheet wb name headers = (wb, some (.sheetExists name)) := by
  simp [create_sheet, h]

/-- Instantiation of C6 at a concrete workbook. -/
theorem c6_witness :
    create_sheet wb0 "S" (some ["ID", "Name"]) = (wb0, some (.sheetExists "S")) :=
  c6_create_sheet_duplicate wb0 "S" (some ["ID", "Name"]) (by decide)

/-- C9: opening a path with no file yields a workbook with no sheets, and
on that fresh workbook `create_sheet` succeeds for every sheet name,
leaving exactly that one sheet. -/
theorem c9_fresh_workbook_empty :
    newWorkbook.sheetnames = [] ∧
    ∀ (name : String) (headers : Option (List String)),
      (create_sheet newWorkbook name headers).2 = none ∧
      (create_sheet newWorkbook name headers).1.sheetnames = [name] := by
  refine ⟨rfl, fun name headers => ?_⟩
  simp [create_sheet, newWorkbook, Workbook.sheetnames]

/-! ### Lemmas about the column and A1 parsers -/

theorem colVal_pos (ch : Char) (v : Nat) (h : colVal ch = some v) : 1 ≤ v := by
  unfold colVal at h
  split at h
  · next hb => injection h with h; omega
  · exact absurd h (by simp)

theorem colIndexAux_le (ls : List Char) (acc n : Nat)
    (h : colIndexAux ls acc = some n) : acc ≤ n := by
  induction ls generalizing acc with
  | nil =>
    simp [colIndexAux] at h
    omega
  | cons ch rest ih =>
    unfold colIndexAux at h
    cases hv : colVal ch with
    | none => rw [hv] at h; exact absurd h (by simp)
    | some v =>
      rw [hv] at h
      have := ih (26 * acc + v) h
      omega

theorem colIndexAux_pos (ls : List Char) (n : Nat) (hne : ls ≠ [])
    (h : colIndexAux ls 0 = some n) : 1 ≤ n := by
  cases ls with
  | nil => exact absurd rfl hne
  | cons ch rest =>
    unfold colIndexAux at h
    cases hv : colVal ch with
    | none => rw [hv] at h; exact absurd h (by simp)
    | some v =>
      rw [hv] at h
      have h1 := colVal_pos ch v hv
      have h2 := colIndexAux_le rest (26 * 0 + v) n h
      omega

theorem parseA1Core_pos (ls ds : List Char) (r c : Int)
    (h : parseA1Core ls ds = some (r, c)) : 1 ≤ r ∧ 1 ≤ c := by
  unfold parseA1Core at h
  split at h
  · exact absurd h (by simp)
  · next hcond =>
    have hne : ls ≠ [] := by
      intro hl
      exact hcond (Or.inl hl)
    cases hcol : colIndexAux ls 0 with
    | none => rw [hcol] at h; exact absurd h (by simp)
    | some c0 =>
      rw [hcol] at h
      dsimp only at h
      split at h
      · next hr =>
        injection h with h
        injection h with h1 h2
        have := colIndexAux_pos ls c0 hne hcol
        omega
      · exact absurd h (by simp)

theorem parseA1_pos (ref : String) (r c : Int) (h : parseA1 ref = some (r, c)) :
    1 ≤ r ∧ 1 ≤ c :=
  parseA1Core_pos _ _ r c h

/-- C2: for a parsable A1 reference denoting (r, c), writing by index then
reading by reference returns the value, and writing by reference then
reading by index returns the value. -/
theorem c2_a1_index_consistency (wb : Workbook) (fmtOk : String → Bool) (sn : String)
    (ws : Sheet) (ref : String) (r c : Int) (v : XlValue)
    (hs : wb.getSheet sn = some ws) (hp : parseA1 ref = some (r, c)) :
    read_cell_a1 (write_cell wb fmtOk sn r (.int c) v none).1 sn ref = .ok (some v) ∧
    read_cell (write_cell_a1 wb fmtOk sn ref v none).1 sn r (.int c) = .ok (some v) := by
  obtain ⟨hr, hc⟩ := parseA1_pos ref r c hp
  have hr' : ¬ (r < 1) := by omega
  have hc' : ¬ (c < 1) := by omega
  have h1 := Workbook.getSheet_updateSheet wb sn
    (fun ws => ws.updateCell r c (fun cd => { cd with value := some v })) ws hs
  have h2 := Workbook.getSheet_updateSheet (wb.updateSheet sn
      (fun ws => ws.updateCell r c (fun cd => { cd with value := some v }))) sn
    (fun ws => ws.updateCell r c (fun cd => { cd with border := true })) _ h1
  constructor
  · simp [write_cell, setValueFormatBorder, resolveCol, hs, hr', hc',
      read_cell_a1, hp, h2, Sheet.getCell_updateCell_self]
  · simp [write_cell_a1, setValueFormatBorder, hs, hp,
      read_cell, resolveCol, hr', hc', h2, Sheet.getCell_updateCell_self]

/-- Instantiation of C2 at the reference "B2" ≡ (2, 2). -/
theorem c2_witness :
    read_cell_a1 (write_cell wb0 (fun _ => true) "S" 2 (.int 2) (.text "x") none).1 "S" "B2"
      = .ok (some (.text "x")) ∧
    read_cell (write_cell_a1 wb0 (fun _ => true) "S" "B2" (.text "x") none).1 "S" 2 (.int 2)
      = .ok (some (.text "x")) :=
  c2_a1_index_consistency wb0 (fun _ => true) "S" emptySheet "B2" 2 2 (.text "x")
    (by decide) (by decide)

/-- C8: on an existing sheet, an unparsable A1 reference makes
`read_cell_a1` fail with the engine's reference error and `write_cell_a1`
fail with the wrapped reference error — both of the spec's
InvalidAddressError kind, the write leaving the workbook unchanged. -/
theorem c8_read_a1_invalid_reference (wb : Workbook) (sn : String) (ws : Sheet)
    (ref : String) (fmtOk : String → Bool) (v : XlValue) (fmt : Option String)
    (hs : wb.getSheet sn = some ws) (hp : parseA1 ref = none) :
    read_cell_a1 wb sn ref = .error (.invalidReference ref) ∧
    (XlError.invalidReference ref).isInvalidAddress = true ∧
    write_cell_a1 wb fmtOk sn ref v fmt = (wb, some (.invalidCellRef ref)) ∧
    (XlError.invalidCellRef ref).isInvalidAddress = true := by
  simp [read_cell_a1, write_cell_a1, hs, hp, XlError.isInvalidAddress]

/-- Instantiation of C8 at the unparsable reference "2B". -/
theorem c8_witness :
    read_cell_a1 wb0 "S" "2B" = .error (.invalidReference "2B") ∧
    (XlError.invalidReference "2B").isInvalidAddress = true ∧
    write_cell_a1 wb0 (fun _ => true) "S" "2B" (.num 1) none
      = (wb0, some (.invalidCellRef "2B")) ∧
    (XlError.invalidCellRef "2B").isInvalidAddress = true :=
  c8_read_a1_invalid_reference wb0 "S" emptySheet "2B" (fun _ => true) (.num 1) none
    (by decide) (by decide)

/-- C10: an empty number-format string is falsy in Python, so both write
operations succeed, write the value and the border, and leave the cell's
display format exactly as it was. -/
theorem c10_empty_format_skipped (wb : Workbook) (fmtOk : String → Bool) (sn : String)
    (ws : Sheet) (ref : String) (r c : Int) (v : XlValue)
    (hs : wb.getSheet sn = some ws) (hp : parseA1 ref = some (r, c)) :
    (write_cell wb fmtOk sn r (.int c) v (some "")).2 = none ∧
    (∃ ws1, (write_cell wb fmtOk sn r (.int c) v (some "")).1.getSheet sn = some ws1 ∧
      (ws1.getCell r c).value = some v ∧ (ws1.getCell r c).border = true ∧
      (ws1.getCell r c).numberFormat = (ws.getCell r c).numberFormat) ∧
    (write_cell_a1 wb fmtOk sn ref v (some "")).2 = none ∧
    (∃ ws2, (write_cell_a1 wb fmtOk sn ref v (some "")).1.getSheet sn = some ws2 ∧
      (ws2.getCell r c).value = some v ∧ (ws2.getCell r c).border = true ∧
      (ws2.getCell r c).numberFormat = (ws.getCell r c).numberFormat) := by
  obtain ⟨hr, hc⟩ := parseA1_pos ref r c hp
  have hr' : ¬ (r < 1) := by omega
  have hc' : ¬ (c < 1) := by omega
  have h1 := Workbook.getSheet_updateSheet wb sn
    (fun ws => ws.updateCell r c (fun cd => { cd with value := some v })) ws hs
  have h2 := Workbook.getSheet_updateSheet (wb.updateSheet sn
      (fun ws => ws.updateCell r c (fun cd => { cd with value := some v }))) sn
    (fun ws => ws.updateCell r c (fun cd => { cd with border := true })) _ h1
  have hw1 : (write_cell wb fmtOk sn r (.int c) v (some "")).1
      = (wb.updateSheet sn
          (fun ws => ws.updateCell r c (fun cd => { cd with value := some v }))).updateSheet sn
          (fun ws => ws.updateCell r c (fun cd => { cd with border := true })) := by
    simp [write_cell, setValueFormatBorder, resolveCol, hs, hr', hc']
  have hw2 : (write_cell_a1 wb fmtOk sn ref v (some "")).1
      = (wb.updateSheet sn
          (fun ws => ws.updateCell r c (fun cd => { cd with value := some v }))).updateSheet sn
          (fun ws => ws.updateCell r c (fun cd => { cd with border := true })) := by
    simp [write_cell_a1, setValueFormatBorder, hs, hp]
  refine ⟨?_, ?_, ?_, ?_⟩
  · simp [write_cell, setValueFormatBorder, resolveCol, hs, hr', hc']
  · rw [hw1]
    exact ⟨_, h2, by simp [Sheet.getCell_updateCell_self]⟩
  · simp [write_cell_a1, setValueFormatBorder, hs, hp]
  · rw [hw2]
    exact ⟨_, h2, by simp [Sheet.getCell_updateCell_self]⟩

/-- Instantiation of C10 at a concrete cell, with an engine that rejects
every format string — the empty format is never submitted to it. -/
theorem c10_witness :
    (write_cell wb0 (fun _ => false) "S" 1 (.int 2) (.num 9) (some "")).2 = none ∧
    (∃ ws1, (write_cell wb0 (fun _ => false) "S" 1 (.int 2) (.num 9) (some "")).1.getSheet "S"
        = some ws1 ∧
      (ws1.getCell 1 2).value = some (.num 9) ∧ (ws1.getCell 1 2).border = true ∧
      (ws1.getCell 1 2).numberFormat = (emptySheet.getCell 1 2).numberFormat) ∧
    (write_cell_a1 wb0 (fun _ => false) "S" "B1" (.num 9) (some "")).2 = none ∧
    (∃ ws2, (write_cell_a1 wb0 (fun _ => false) "S" "B1" (.num 9) (some "")).1.getSheet "S"
        = some ws2 ∧
      (ws2.getCell 1 2).value = some (.num 9) ∧ (ws2.getCell 1 2).border = true ∧
      (ws2.getCell 1 2).numberFormat = (emptySheet.getCell 1 2).numberFormat) :=
  c10_empty_format_skipped wb0 (fun _ => false) "S" emptySheet "B1" 1 2 (.num 9)
    (by decide) (by decide)

/-- C5 fails as stated: with an engine that rejects the format string,
`write_cell` raises the invalid-format error, yet the workbook has already
been mutated — the value assignment precedes the format assignment. -/
theorem c5_counterexample :
    (write_cell wb0 (fun _ => false) "S" 1 (.int 1) (.num 7) (some "#,##0")).2
        = some (.invalidNumberFormat "#,##0") ∧
    (write_cell wb0 (fun _ => false) "S" 1 (.int 1) (.num 7) (some "#,##0")).1 ≠ wb0 := by
  decide

/-- C5 (amended): address and sheet validation happens before mutation, so
any write-operation error other than the invalid-format one leaves the
workbook unchanged; but when the engine rejects a non-empty numberFormat,
the cell's value has already been written and persists. -/
theorem c5_validation_before_mutation :
    (∀ (wb : Workbook) (fmtOk : String → Bool) (sn : String) (r : Int) (col : Col)
        (v : XlValue) (fmt : Option String) (e : XlError),
      (write_cell wb fmtOk sn r col v fmt).2 = some e →
      (∀ f, e ≠ .invalidNumberFormat f) →
      (write_cell wb fmtOk sn r col v fmt).1 = wb) ∧
    (∀ (wb : Workbook) (fmtOk : String → Bool) (sn ref : String)
        (v : XlValue) (fmt : Option String) (e : XlError),
      (write_cell_a1 wb fmtOk sn ref v fmt).2 = some e →
      (∀ f, e ≠ .invalidNumberFormat f) →
      (write_cell_a1 wb fmtOk sn ref v fmt).1 = wb) ∧
    (∀ (wb : Workbook) (sn : String) (data : List (List XlValue)) (sr : Int) (e : XlError),
      (write_data wb sn data sr).2 = some e → (write_data wb sn data sr).1 = wb) ∧
    (∀ (wb : Workbook) (fmtOk : String → Bool) (sn : String) (ws : Sheet) (r : Int)
        (col : Col) (cix : Int) (v : XlValue) (f : String) (fmt : Option String),
      wb.getSheet sn = some ws → resolveCol col = some cix →
      (write_cell wb fmtOk sn r col v fmt).2 = some (.invalidNumberFormat f) →
      ∃ ws1, (write_cell wb fmtOk sn r col v fmt).1.getSheet sn = some ws1 ∧
        (ws1.getCell r cix).value = some v) := by
  refine ⟨?_, ?_, ?_, ?_⟩
  · intro wb fmtOk sn r col v fmt e herr hne
    unfold write_cell setValueFormatBorder at herr ⊢
    cases hg : wb.getSheet sn with
    | none => simp [hg] at herr ⊢
    | some ws =>
      cases hc : resolveCol col with
      | none => simp [hg, hc] at herr ⊢
      | some cix =>
        simp only [hg, hc] at herr ⊢
        by_cases h1 : cix < 1
        · simp [h1] at herr ⊢
        · by_cases h2 : r < 1
          · simp [h1, h2] at herr ⊢
          · simp only [h1, h2, if_false] at herr ⊢
            cases fmt with
            | none => simp at herr
            | some f1 =>
              by_cases h3 : f1 = ""
              · simp [h3] at herr
              · by_cases h4 : fmtOk f1
                · simp [h3, h4] at herr
                · simp [h3, h4] at herr
                  exact (hne f1 herr.symm).elim
  · intro wb fmtOk sn ref v fmt e herr hne
    unfold write_cell_a1 setValueFormatBorder at herr ⊢
    cases hg : wb.getSheet sn with
    | none => simp [hg] at herr ⊢
    | some ws =>
      cases hp : parseA1 ref with
      | none => simp [hg, hp] at herr ⊢
      | some rc =>
        obtain ⟨r, c⟩ := rc
        simp only [hg, hp] at herr ⊢
        cases fmt with
        | none => simp at herr
        | some f1 =>
          by_cases h3 : f1 = ""
          · simp [h3] at herr
          · by_cases h4 : fmtOk f1
            · simp [h3, h4] at herr
            · simp [h3, h4] at herr
              exact (hne f1 herr.symm).elim
  · intro wb sn data sr e herr
    unfold write_data at herr ⊢
    cases hg : wb.getSheet sn <;> simp [hg] at herr ⊢
  · intro wb fmtOk sn ws r col cix v f fmt hg hc herr
    unfold write_cell setValueFormatBorder at herr ⊢
    simp [hg, hc] at herr ⊢
    by_cases h1 : cix < 1
    · simp [h1] at herr
    · by_cases h2 : r < 1
      · simp [h1, h2] at herr
      · simp [h1, h2] at herr ⊢
        cases fmt with
        | none => simp at herr
        | some f1 =>
          by_cases h3 : f1 = ""
          · simp [h3] at herr
          · by_cases h4 : fmtOk f1
            · simp [h3, h4] at herr
            · simp [h3, h4] at herr ⊢
              exact ⟨_, Workbook.getSheet_updateSheet wb sn _ ws hg,
                by simp [Sheet.getCell_updateCell_self]⟩

/-- Instantiation of C5 (amended): a write on a missing sheet errors and
leaves the workbook untouched, and a rejected format leaves the value
written. -/
theorem c5_witness :
    (write_cell wb0 (fun _ => true) "X" 1 (.int 1) (.num 0) none).1 = wb0 ∧
    (∃ ws1, (write_cell wb0 (fun _ => false) "S" 1 (.int 1) (.num 7) (some "#,##0")).1.getSheet "S"
        = some ws1 ∧ (ws1.getCell 1 1).value = some (.num 7)) :=
  ⟨c5_validation_before_mutation.1 wb0 (fun _ => true) "X" 1 (.int 1) (.num 0) none
      (.sheetNotFound "X") (by decide) (by intro f h; exact XlError.noConfusion h),
   c5_validation_before_mutation.2.2.2 wb0 (fun _ => false) "S" emptySheet 1 (.int 1) 1
      (.num 7) "#,##0" (some "#,##0") (by decide) (by decide) (by decide)⟩

theorem colVal_isColChar (ch : Char) (v : Nat) (h : colVal ch = some v) :
    isColChar ch = true := by
  unfold colVal at h
  split at h
  · next hb => simp [isColChar, hb]
  · exact absurd h (by simp)

theorem colIndexAux_all (ls : List Char) (acc n : Nat)
    (h : colIndexAux ls acc = some n) : ls.all isColChar = true := by
  induction ls generalizing acc with
  | nil => simp
  | cons ch rest ih =>
    unfold colIndexAux at h
    cases hv : colVal ch with
    | none => rw [hv] at h; exact absurd h (by simp)
    | some v =>
      rw [hv] at h
      simp [List.all_cons, colVal_isColChar ch v hv, ih _ h]

theorem column_index_fail (s : String)
    (h : s.data.all isColChar = false ∨ s = "") :
    column_index_from_string s = none := by
  unfold column_index_from_string
  by_cases hd : s.data = []
  · simp [hd]
  · simp only [hd, if_false]
    cases hx : colIndexAux s.data 0 with
    | none => rfl
    | some n =>
      rcases h with h | h
      · rw [colIndexAux_all s.data 0 n hx] at h
        cases h
      · subst h
        exact absurd rfl hd

/-- C3 fails as stated for ReadRange: a non-alphabetic column string makes
`read_range` fail with the range-spec error, which is not of the
InvalidAddressError kind. -/
theorem c3_counterexample :
    read_range wb0 "S" 1 (.str "@") 1 (.int 1) = .error .invalidRangeSpec ∧
    XlError.invalidRangeSpec.isInvalidAddress = false ∧
    ("@").data.all Char.isAlpha = false :=
  ⟨rfl, by decide, by decide⟩

/-- C3 (amended): the column conversion is standard base-26 spreadsheet
numbering ("A"→1, "Z"→26, "AA"→27, "AB"→28) and rejects every empty string
and every string that is not all column letters (in particular every
empty or non-alphabetic one); on such strings `write_cell` and `read_cell`
fail with the column error of the InvalidAddressError kind, while
`read_range` wraps the same conversion failure as its range-spec error,
which is of the InvalidRangeError kind, not InvalidAddressError. -/
theorem c3_column_conversion :
    (column_index_from_string "A" = some 1 ∧ column_index_from_string "Z" = some 26 ∧
     column_index_from_string "AA" = some 27 ∧ column_index_from_string "AB" = some 28) ∧
    (∀ (s : String), (s.data.all isColChar = false ∨ s = "") →
      column_index_from_string s = none) ∧
    (∀ (wb : Workbook) (fmtOk : String → Bool) (sn : String) (ws : Sheet) (r : Int)
        (v : XlValue) (fmt : Option String) (s : String),
      wb.getSheet sn = some ws → (s.data.all isColChar = false ∨ s = "") →
      write_cell wb fmtOk sn r (.str s) v fmt = (wb, some .invalidColumnSpec) ∧
      read_cell wb sn r (.str s) = .error .invalidColumnSpec ∧
      XlError.invalidColumnSpec.isInvalidAddress = true) ∧
    (∀ (wb : Workbook) (sn : String) (ws : Sheet) (sr er : Int) (ecol : Col) (s : String),
      wb.getSheet sn = some ws → 1 ≤ sr → sr ≤ er →
      (s.data.all isColChar = false ∨ s = "") →
      read_range wb sn sr (.str s) er ecol = .error .invalidRangeSpec ∧
      XlError.invalidRangeSpec.isInvalidAddress = false) := by
  refine ⟨by decide, column_index_fail, ?_, ?_⟩
  · intro wb fmtOk sn ws r v fmt s hg hbad
    have hnone := column_index_fail s hbad
    simp [write_cell, read_cell, resolveCol, hg, hnone, XlError.isInvalidAddress]
  · intro wb sn ws sr er ecol s hg h1 h2 hbad
    have hnone := column_index_fail s hbad
    have h1' : ¬ (sr < 1 ∨ er < 1) := by omega
    have h2' : ¬ (er < sr) := by omega
    simp [read_range, resolveCol, hg, h1', h2', hnone, XlError.isInvalidAddress]

/-- Instantiation of C3 (amended) at concrete bad column strings. -/
theorem c3_witness :
    column_index_from_string "@" = none ∧
    write_cell wb0 (fun _ => true) "S" 1 (.str "") (.num 1) none
      = (wb0, some .invalidColumnSpec) ∧
    read_range wb0 "S" 1 (.str "A1") 1 (.int 1) = .error .invalidRangeSpec :=
  ⟨c3_column_conversion.2.1 "@" (Or.inl (by decide)),
   (c3_column_conversion.2.2.1 wb0 (fun _ => true) "S" emptySheet 1 (.num 1) none ""
      (by decide) (Or.inr rfl)).1,
   (c3_column_conversion.2.2.2 wb0 "S" emptySheet 1 1 (.int 1) "A1"
      (by decide) (by decide) (by decide) (Or.inl (by decide))).1⟩

/-- C7 fails as stated: on an existing sheet with rows 1..1 and an
unparsable start column, `read_range` fails with the range error even
though none of the claim's four conditions (row bound < 1, a resolved
column bound < 1, endRow < startRow, endColumn < startColumn) holds. -/
theorem c7_counterexample :
    (∃ e, read_range wb0 "S" 1 (.str "@") 1 (.int 1) = .error e ∧
      e.isInvalidRange = true) ∧
    ¬ ((1:Int) < 1 ∨ (1:Int) < 1 ∨ (1:Int) < (1:Int) ∨
      (∃ a, resolveCol (.str "@") = some a ∧ a < 1) ∨
      (∃ b, resolveCol (.int 1) = some b ∧ b < 1) ∨
      (∃ a b, resolveCol (.str "@") = some a ∧ resolveCol (.int 1) = some b ∧ b < a)) := by
  constructor
  · exact ⟨.invalidRangeSpec, rfl, rfl⟩
  · have hnone : resolveCol (.str "@") = none := by decide
    intro h
    rcases h with h | h | h | ⟨a, ha, _⟩ | ⟨b, hb, hb1⟩ | ⟨a, b, ha, _, _⟩
    · exact absurd h (by decide)
    · exact absurd h (by decide)
    · exact absurd h (by decide)
    · rw [hnone] at ha; cases ha
    · injection hb with hb
      omega
    · rw [hnone] at ha; cases ha

/-- C7 (amended): on an existing sheet, `read_range` fails with an error
of the InvalidRangeError kind if and only if a row bound is below 1, the
end row is below the start row, a column specification fails to resolve,
a resolved column bound is below 1, or the resolved end column is below
the resolved start column. -/
theorem c7_read_range_error_iff (wb : Workbook) (sn : String) (ws : Sheet)
    (sr er : Int) (scol ecol : Col) (hs : wb.getSheet sn = some ws) :
    (∃ e, read_range wb sn sr scol er ecol = .error e ∧ e.isInvalidRange = true) ↔
      (sr < 1 ∨ er < 1 ∨ er < sr ∨ resolveCol scol = none ∨ resolveCol ecol = none ∨
        ∃ a b, resolveCol scol = some a ∧ resolveCol ecol = some b ∧
          (a < 1 ∨ b < 1 ∨ b < a)) := by
  unfold read_range
  by_cases h1 : sr < 1 ∨ er < 1
  · simp [hs, h1, XlError.isInvalidRange]
    tauto
  · rcases not_or.mp h1 with ⟨e1, e2⟩
    by_cases h2 : er < sr
    · simp [hs, h1, h2, XlError.isInvalidRange]
    · cases hsc : resolveCol scol with
      | none =>
        simp [hs, h1, h2, hsc, XlError.isInvalidRange]
      | some a =>
        cases hec : resolveCol ecol with
        | none =>
          simp [hs, h1, h2, hsc, hec, XlError.isInvalidRange]
        | some b =>
          by_cases h3 : a < 1 ∨ b < 1
          · simp [hs, h1, h2, hsc, hec, h3, XlError.isInvalidRange, e1, e2]
            tauto
          · rcases not_or.mp h3 with ⟨e3, e4⟩
            by_cases h4 : b < a
            · simp [hs, h1, h2, hsc, hec, h3, h4, XlError.isInvalidRange, e1, e2]
            · simp [hs, h1, h2, hsc, hec, h3, h4, XlError.isInvalidRange,
                e1, e2, e3, e4]

/-- Instantiation of C7 (amended) at concrete inputs exercising both
directions of the equivalence. -/
theorem c7_witness :
    ((∃ e, read_range wb0 "S" 2 (.int 1) 1 (.int 3) = .error e ∧
        e.isInvalidRange = true) ↔
      ((2:Int) < 1 ∨ (1:Int) < 1 ∨ (1:Int) < (2:Int) ∨ resolveCol (.int 1) = none ∨
        resolveCol (.int 3) = none ∨
        ∃ a b, resolveCol (.int 1) = some a ∧ resolveCol (.int 3) = some b ∧
          (a < 1 ∨ b < 1 ∨ b < a))) ∧
    ((∃ e, read_range wb0 "S" 1 (.int 1) 2 (.int 3) = .error e ∧
        e.isInvalidRange = true) ↔
      ((1:Int) < 1 ∨ (2:Int) < 1 ∨ (2:Int) < (1:Int) ∨ resolveCol (.int 1) = none ∨
        resolveCol (.int 3) = none ∨
        ∃ a b, resolveCol (.int 1) = some a ∧ resolveCol (.int 3) = some b ∧
          (a < 1 ∨ b < 1 ∨ b < a))) :=
  ⟨c7_read_range_error_iff wb0 "S" emptySheet 2 1 (.int 1) (.int 3) (by decide),
   c7_read_range_error_iff wb0 "S" emptySheet 1 2 (.int 1) (.int 3) (by decide)⟩

theorem intRange_length (a : Int) (n : Nat) : (intRange a n).length = n := by
  induction n generalizing a with
  | zero => rfl
  | succ n ih => simp [intRange, ih]

theorem getD_map_intRange {β : Type} (f : Int → β) (a : Int) (n i : Nat) (d : β)
    (h : i < n) : ((intRange a n).map f).getD i d = f (a + i) := by
  induction n generalizing a i with
  | zero => omega
  | succ n ih =>
    cases i with
    | zero => simp [intRange]
    | succ i =>
      have hcast : (a + 1) + (i : Int) = a + ((i + 1 : Nat) : Int) := by
        push_cast
        ring
      simp only [intRange, List.map_cons, List.getD_cons_succ]
      rw [ih (a + 1) i (by omega), hcast]

/-- C4: on an existing sheet with valid inclusive bounds, `read_range`
returns a row-major block of exactly (endRow − startRow + 1) rows by
(endColumn − startColumn + 1) columns whose (i, j) entry is the stored
value at (startRow + i, startColumn + j), never-written cells reading as
`none`; in particular, after `write_data` of a 2×3 block at start row 2,
reading rows 2..3 and columns 1..3 returns exactly that block. -/
theorem c4_read_range_block :
    (∀ (wb : Workbook) (sn : String) (ws : Sheet) (sr sc er ec : Int),
      wb.getSheet sn = some ws → 1 ≤ sr → sr ≤ er → 1 ≤ sc → sc ≤ ec →
      ∃ d, read_range wb sn sr (.int sc) er (.int ec) = .ok d ∧
        d.length = (er - sr + 1).toNat ∧
        (∀ row ∈ d, row.length = (ec - sc + 1).toNat) ∧
        (∀ i j : Nat, i < (er - sr + 1).toNat → j < (ec - sc + 1).toNat →
          (d.getD i []).getD j none = (ws.getCell (sr + i) (sc + j)).value) ∧
        (∀ r c : Int, lookupCell ws.cells (r, c) = none →
          (ws.getCell r c).value = none)) ∧
    (∀ (a b c d1 e f : XlValue) (wb : Workbook) (sn : String) (ws : Sheet),
      wb.getSheet sn = some ws →
      (write_data wb sn [[a, b, c], [d1, e, f]] 2).2 = none ∧
      read_range (write_data wb sn [[a, b, c], [d1, e, f]] 2).1 sn 2 (.int 1) 3 (.int 3)
        = .ok [[some a, some b, some c], [some d1, some e, some f]]) := by
  constructor
  · intro wb sn ws sr sc er ec hg h1 h2 h3 h4
    have hr1 : ¬ (sr < 1 ∨ er < 1) := by omega
    have hr2 : ¬ (er < sr) := by omega
    have hc1 : ¬ (sc < 1 ∨ ec < 1) := by omega
    have hc2 : ¬ (ec < sc) := by omega
    refine ⟨(intRange sr (er - sr + 1).toNat).map
        (fun r => (intRange sc (ec - sc + 1).toNat).map
          (fun c => (ws.getCell r c).value)), ?_, ?_, ?_, ?_, ?_⟩
    · simp [read_range, hg, hr1, hr2, hc1, hc2, resolveCol]
    · simp [intRange_length]
    · intro row hrow
      rcases List.mem_map.mp hrow with ⟨r, _, rfl⟩
      simp [intRange_length]
    · intro i j hi hj
      rw [getD_map_intRange _ sr _ i [] hi, getD_map_intRange _ sc _ j none hj]
    · intro r c h
      simp [Sheet.getCell, h, blankCell]
  · intro a b c d1 e f wb sn ws hg
    have hup := Workbook.getSheet_updateSheet wb sn
      (fun ws => writeRows ws 2 [[a, b, c], [d1, e, f]]) ws hg
    have hwd : (write_data wb sn [[a, b, c], [d1, e, f]] 2).1
        = wb.updateSheet sn (fun ws => writeRows ws 2 [[a, b, c], [d1, e, f]]) := by
      simp [write_data, hg]
    constructor
    · simp [write_data, hg]
    · rw [hwd]
      unfold read_range
      rw [hup]
      rfl

/-- Instantiation of C4 at concrete bounds and a concrete 2×3 block. -/
theorem c4_witness :
    (∃ d, read_range wb0 "S" 1 (.int 1) 2 (.int 2) = .ok d ∧
      d.length = ((2:Int) - 1 + 1).toNat ∧
      (∀ row ∈ d, row.length = ((2:Int) - 1 + 1).toNat) ∧
      (∀ i j : Nat, i < ((2:Int) - 1 + 1).toNat → j < ((2:Int) - 1 + 1).toNat →
        (d.getD i []).getD j none = (emptySheet.getCell (1 + i) (1 + j)).value) ∧
      (∀ r c : Int, lookupCell emptySheet.cells (r, c) = none →
        (emptySheet.getCell r c).value = none)) ∧
    ((write_data wb0 "S" [[.num 1, .num 2, .num 3], [.num 4, .num 5, .num 6]] 2).2
        = none ∧
      read_range
          (write_data wb0 "S" [[.num 1, .num 2, .num 3], [.num 4, .num 5, .num 6]] 2).1
          "S" 2 (.int 1) 3 (.int 3)
        = .ok [[some (.num 1), some (.num 2), some (.num 3)],
               [some (.num 4), some (.num 5), some (.num 6)]]) :=
  ⟨c4_read_range_block.1 wb0 "S" emptySheet 1 1 2 2 (by decide) (by decide) (by decide)
      (by decide) (by decide),
   c4_read_range_block.2 (.num 1) (.num 2) (.num 3) (.num 4) (.num 5) (.num 6)
      wb0 "S" emptySheet (by decide)⟩
